import Mathlib

/-
Verification development for the termscp core sources
(`src/main.rs` and `src/ui/activities/auth/components/form.rs`).

The Rust code is embedded shallowly: pure fragments become Lean functions,
machine integers become `Nat`/`Int`, fallible calls become `Except`/`Option`,
and a Rust panic is modelled as `Option.none`.  External collaborators that
are not part of the sources (the argh CLI structs, the support/update/theme
helpers, the activity manager, the remote-address parser, the crypto library
and the TUI widget toolkit) are either parameters of the embedded functions
or definitions explicitly marked as modelled from the specification.
-/

set_option autoImplicit false
set_option maxRecDepth 8192

namespace Termscp

/-- File transfer protocols, as used by the auth form
(`FileTransferProtocol` in the sources): SFTP, SCP, FTP with a TLS flag,
and AWS S3. -/
inductive FileTransferProtocol where
  | Sftp
  | Scp
  | Ftp (secure : Bool)
  | AwsS3
deriving DecidableEq, Repr

/-- Messages emitted by the auth-activity form components
(the `Msg` variant referenced by `form.rs`). -/
inductive Msg where
  | None
  | Connect
  | ProtocolChanged (p : FileTransferProtocol)
  | ProtocolBlurDown
  | ProtocolBlurUp
  | ParamsFormBlur
  | AddressBlurDown
  | AddressBlurUp
  | PortBlurDown
  | PortBlurUp
  | UsernameBlurDown
  | UsernameBlurUp
  | PasswordBlurDown
  | PasswordBlurUp
  | S3BucketBlurDown
  | S3BucketBlurUp
  | S3RegionBlurDown
  | S3RegionBlurUp
  | S3ProfileBlurDown
  | S3ProfileBlurUp
deriving DecidableEq, Repr

/-- Keyboard key codes (the subset of `tuirealm::event::Key` that `form.rs`
pattern-matches on; `OtherKey` stands for every other key code). -/
inductive Key where
  | Left
  | Right
  | Home
  | End
  | Delete
  | Backspace
  | Char (c : Char)
  | Enter
  | Down
  | Up
  | Tab
  | OtherKey
deriving DecidableEq, Repr

/-- Keyboard modifier state (`tuirealm::event::KeyModifiers`). -/
inductive KeyModifiers where
  | NONE
  | SHIFT
  | CONTROL
  | ALT
deriving DecidableEq, Repr

/-- A keyboard event (`tuirealm::event::KeyEvent`). -/
structure KeyEvent where
  code : Key
  modifiers : KeyModifiers
deriving DecidableEq, Repr

/-- Events delivered to a component; `OtherEvent` stands for every
non-keyboard event (ticks, window events, ...), all of which fall into the
catch-all arm of the `on` handlers. -/
inductive Event where
  | Keyboard (ke : KeyEvent)
  | OtherEvent
deriving DecidableEq, Repr

/-- Movement directions for widget commands (`tuirealm::command::Direction`). -/
inductive Direction where
  | Left
  | Right
  | Up
  | Down
deriving DecidableEq, Repr

/-- Cursor positions for widget commands (`tuirealm::command::Position`). -/
inductive Position where
  | Begin
  | End
deriving DecidableEq, Repr

/-- Widget commands issued by the `on` handlers
(`tuirealm::command::Cmd`; `Cmd::Type(ch)` is called `TypeCh` here because
`Type` is reserved in Lean). -/
inductive Cmd where
  | Move (d : Direction)
  | GoTo (p : Position)
  | Cancel
  | Delete
  | TypeCh (c : Char)
deriving DecidableEq, Repr

/-- Widget state payloads (`tuirealm::StateValue`; only the `Usize` payload
is inspected by `form.rs`). -/
inductive StateValue where
  | Usize (n : Nat)
  | OtherValue
deriving DecidableEq, Repr

/-- Widget state (`tuirealm::State`). -/
inductive WidgetState where
  | One (v : StateValue)
  | OtherState
deriving DecidableEq, Repr

/-- Result of performing a widget command (`tuirealm::command::CmdResult`). -/
inductive CmdResult where
  | Changed (s : WidgetState)
  | OtherResult
deriving DecidableEq, Repr

-- -- protocol radio component

/-- Embedding of `ProtocolRadio::protocol_opt_to_enum`
(form.rs lines 63-71): convert a radio index into a `FileTransferProtocol`;
every index other than 1, 2, 3, 4 falls into the catch-all arm and yields
`Sftp`. -/
def ProtocolRadio.protocol_opt_to_enum (protocol : Nat) : FileTransferProtocol :=
  match protocol with
  | 1 => FileTransferProtocol.Scp
  | 2 => FileTransferProtocol.Ftp false
  | 3 => FileTransferProtocol.Ftp true
  | 4 => FileTransferProtocol.AwsS3
  | _ => FileTransferProtocol.Sftp

/-- Embedding of `ProtocolRadio::protocol_enum_to_opt`
(form.rs lines 76-84): convert a `FileTransferProtocol` into its radio
group index. -/
def ProtocolRadio.protocol_enum_to_opt (protocol : FileTransferProtocol) : Nat :=
  match protocol with
  | FileTransferProtocol.Sftp => 0
  | FileTransferProtocol.Scp => 1
  | FileTransferProtocol.Ftp false => 2
  | FileTransferProtocol.Ftp true => 3
  | FileTransferProtocol.AwsS3 => 4

/-- The configuration of a `Radio` widget that is relevant to the claims:
the choice labels, the initially selected index, the rewind flag and the
title. -/
structure RadioConfig where
  choices : List String
  value : Nat
  rewind : Bool
  title : String
deriving DecidableEq, Repr

/-- Embedding of `ProtocolRadio::new` (form.rs lines 44-58): the radio is
built with the five protocol labels and its initial value is the radio
index of the default protocol. -/
def ProtocolRadio.new (default_protocol : FileTransferProtocol) : RadioConfig :=
  { choices := ["SFTP", "SCP", "FTP", "FTPS", "AWS S3"]
    value := ProtocolRadio.protocol_enum_to_opt default_protocol
    rewind := true
    title := "Protocol" }

/-- Embedding of the second `match result` in `ProtocolRadio::on`
(form.rs lines 106-111): a `Changed(One(Usize(choice)))` command result
becomes `ProtocolChanged`, anything else becomes `Msg::None`. -/
def ProtocolRadio.on_result (result : CmdResult) : Option Msg :=
  match result with
  | CmdResult.Changed (WidgetState.One (StateValue.Usize choice)) =>
    some (Msg.ProtocolChanged (ProtocolRadio.protocol_opt_to_enum choice))
  | _ => some Msg.None

/-- Embedding of `ProtocolRadio::on` (form.rs lines 87-113).  The stateful
`self.perform` call of the widget is abstracted as the function argument
`perform`; only the returned message is modelled. -/
def ProtocolRadio.on (perform : Cmd → CmdResult) (ev : Event) : Option Msg :=
  match ev with
  | Event.Keyboard ⟨Key.Left, _⟩ => ProtocolRadio.on_result (perform (Cmd.Move Direction.Left))
  | Event.Keyboard ⟨Key.Right, _⟩ => ProtocolRadio.on_result (perform (Cmd.Move Direction.Right))
  | Event.Keyboard ⟨Key.Enter, _⟩ => some Msg.Connect
  | Event.Keyboard ⟨Key.Down, _⟩ => some Msg.ProtocolBlurDown
  | Event.Keyboard ⟨Key.Up, _⟩ => some Msg.ProtocolBlurUp
  | Event.Keyboard ⟨Key.Tab, _⟩ => some Msg.ParamsFormBlur
  | _ => none

-- -- input components

/-- The shared body of the `on` handlers of the seven `Input`-based
components of the auth form (`InputAddress`, `InputPort`, `InputUsername`,
`InputPassword`, `InputS3Bucket`, `InputS3Region`, `InputS3Profile`;
form.rs lines 140-196, 224-280, 307-362, 389-445, 472-528, 555-611,
638-694).  The seven source bodies are textually identical except for the
two blur messages, which are the first two parameters here.  The stateful
`self.perform` calls are abstracted as `perform`; their results are
discarded by the source exactly as here. -/
def input_component_on (blur_down blur_up : Msg) (perform : Cmd → CmdResult)
    (ev : Event) : Option Msg :=
  match ev with
  | Event.Keyboard ⟨Key.Left, _⟩ =>
    let _ := perform (Cmd.Move Direction.Left); some Msg.None
  | Event.Keyboard ⟨Key.Right, _⟩ =>
    let _ := perform (Cmd.Move Direction.Right); some Msg.None
  | Event.Keyboard ⟨Key.Home, _⟩ =>
    let _ := perform (Cmd.GoTo Position.Begin); some Msg.None
  | Event.Keyboard ⟨Key.End, _⟩ =>
    let _ := perform (Cmd.GoTo Position.End); some Msg.None
  | Event.Keyboard ⟨Key.Delete, _⟩ =>
    let _ := perform Cmd.Cancel; some Msg.None
  | Event.Keyboard ⟨Key.Backspace, _⟩ =>
    let _ := perform Cmd.Delete; some Msg.None
  | Event.Keyboard ⟨Key.Char c, KeyModifiers.NONE⟩ =>
    let _ := perform (Cmd.TypeCh c); some Msg.None
  | Event.Keyboard ⟨Key.Enter, _⟩ => some Msg.Connect
  | Event.Keyboard ⟨Key.Down, _⟩ => some blur_down
  | Event.Keyboard ⟨Key.Up, _⟩ => some blur_up
  | Event.Keyboard ⟨Key.Tab, _⟩ => some Msg.ParamsFormBlur
  | _ => none

/-- Embedding of `InputAddress::on` (form.rs lines 140-196). -/
def InputAddress.on : (Cmd → CmdResult) → Event → Option Msg :=
  input_component_on Msg.AddressBlurDown Msg.AddressBlurUp

/-- Embedding of `InputPort::on` (form.rs lines 224-280). -/
def InputPort.on : (Cmd → CmdResult) → Event → Option Msg :=
  input_component_on Msg.PortBlurDown Msg.PortBlurUp

/-- Embedding of `InputUsername::on` (form.rs lines 307-362). -/
def InputUsername.on : (Cmd → CmdResult) → Event → Option Msg :=
  input_component_on Msg.UsernameBlurDown Msg.UsernameBlurUp

/-- Embedding of `InputPassword::on` (form.rs lines 389-445). -/
def InputPassword.on : (Cmd → CmdResult) → Event → Option Msg :=
  input_component_on Msg.PasswordBlurDown Msg.PasswordBlurUp

/-- Embedding of `InputS3Bucket::on` (form.rs lines 472-528). -/
def InputS3Bucket.on : (Cmd → CmdResult) → Event → Option Msg :=
  input_component_on Msg.S3BucketBlurDown Msg.S3BucketBlurUp

/-- Embedding of `InputS3Region::on` (form.rs lines 555-611). -/
def InputS3Region.on : (Cmd → CmdResult) → Event → Option Msg :=
  input_component_on Msg.S3RegionBlurDown Msg.S3RegionBlurUp

/-- Embedding of `InputS3Profile::on` (form.rs lines 638-694). -/
def InputS3Profile.on : (Cmd → CmdResult) → Event → Option Msg :=
  input_component_on Msg.S3ProfileBlurDown Msg.S3ProfileBlurUp

-- -- port input configuration and admission

/-- Input type of an `Input` widget (`tuirealm::props::InputType`; the port
field uses `UnsignedInteger`, the text fields `Text`, the password field
`Password('*')`). -/
inductive InputTypeCfg where
  | Text
  | UnsignedInteger
  | PasswordTy (mask : Char)
deriving DecidableEq, Repr

/-- The configuration of an `Input` widget that is relevant to the claims:
the input type, the optional maximum input length, the placeholder, the
title and the initial value. -/
structure InputConfig where
  input_type : InputTypeCfg
  input_len : Option Nat
  placeholder : String
  title : String
  value : String
deriving DecidableEq, Repr

/-- Embedding of `InputPort::new` (form.rs lines 205-222): the port field
is an `UnsignedInteger` input with `input_len(5)`, placeholder `22`, title
`Port number`, and the given port rendered as its initial value.  This is
the complete filtering configuration the source applies to the field; no
range bound appears in it. -/
def InputPort.new (port : Nat) : InputConfig :=
  { input_type := InputTypeCfg.UnsignedInteger
    input_len := some 5
    placeholder := "22"
    title := "Port number"
    value := toString port }

/-- Modelled from the spec: the `Input` widget itself belongs to the TUI
widget toolkit, which the spec (section 1) treats as an external
collaborator and which is not among the sources.  Typing a character
appends it to the buffer exactly when it passes the configured input-type
check (a decimal digit for `UnsignedInteger`, anything for the other
types) and the buffer length is below `input_len` (unbounded when
`input_len` is unset). -/
def input_keypress (cfg : InputConfig) (buf : List Char) (c : Char) : List Char :=
  let type_ok : Bool :=
    match cfg.input_type with
    | InputTypeCfg.UnsignedInteger => c.isDigit
    | _ => true
  let len_ok : Bool :=
    match cfg.input_len with
    | some n => buf.length < n
    | none => true
  if type_ok && len_ok then buf ++ [c] else buf

/-- The buffer an `Input` widget holds after the user types the characters
`cs` into an initially empty field. -/
def input_typed (cfg : InputConfig) (cs : List Char) : List Char :=
  cs.foldl (input_keypress cfg) []

/-- The numeric value of a digit buffer, as a base-10 numeral
(`48 = '0'.toNat`). -/
def digits_val (cs : List Char) : Nat :=
  cs.foldl (fun a c => a * 10 + (c.toNat - 48)) 0

-- -- main.rs: CLI argument model

/-- Top-level activities of the activity manager (`NextActivity`; main.rs
uses `Authentication` implicitly through the default task and
`FileTransfer` explicitly; `SetupActivity` is the spec's SetupConfig
state). -/
inductive NextActivity where
  | Authentication
  | FileTransfer
  | SetupActivity
deriving DecidableEq, Repr

/-- Modelled from the spec: `FileTransferParams` (spec section 3) is a
protocol together with connection parameters and optional entry
directories.  Its definition lives in the filetransfer module, which is
not among the sources; main.rs only carries values of this type around,
so only the protocol tag and an opaque payload are modelled. -/
structure FileTransferParams where
  protocol : FileTransferProtocol
  entry_directory : Option String := none
deriving DecidableEq, Repr

/-- Host params attached to a parsed remote address (`cli_opts::HostParams`,
not among the sources; its `new(params, password)` constructor pairs the
parsed `FileTransferParams` with the `--password` value, as used at
main.rs line 167 and lines 231-236). -/
structure HostParams where
  params : FileTransferParams
  password : Option String
deriving DecidableEq, Repr

/-- Bookmark params attached to a bookmark-name address
(`cli_opts::BookmarkParams`, not among the sources; its
`new(name, password)` constructor pairs the bookmark name with the
`--password` value, as used at main.rs lines 160-163 and 225-230). -/
structure BookmarkParams where
  name : String
  password : Option String
deriving DecidableEq, Repr

/-- The remote requested on the command line (`cli_opts::Remote`, whose
three variants are visible from their uses in main.rs lines 131-137 and
224-238). -/
inductive Remote where
  | None
  | Bookmark (b : BookmarkParams)
  | Host (h : HostParams)
deriving DecidableEq, Repr

/-- Log levels (`system::logging::LogLevel`; main.rs uses `Trace` and
`Off`; `Info` stands for the default level). -/
inductive LogLevel where
  | Off
  | Info
  | Trace
deriving DecidableEq, Repr

/-- The task selected by argument parsing (`cli_opts::Task`, whose three
variants are visible from their uses in main.rs lines 109-111, 136 and
180-186). -/
inductive Task where
  | ImportTheme (theme : String)
  | InstallUpdate
  | Activity (a : NextActivity)
deriving DecidableEq, Repr

/-- Run options produced by `parse_args` (`cli_opts::RunOpts`, with the
fields used by main.rs: the task, the remote, the tick interval in
milliseconds and the log level). -/
structure RunOpts where
  task : Task
  remote : Remote
  ticks : Nat
  log_level : LogLevel
deriving DecidableEq, Repr

/-- Modelled from the spec: `RunOpts::default()` (cli_opts is not among
the sources).  Per the spec the session starts in the Auth activity
(section 2: Auth then FileTransfer), the tick default is 10 ms
(section 6) and no remote is preset; the default log level is taken to
be `Info`, which no claim depends on. -/
def RunOpts.default : RunOpts :=
  { task := Task.Activity NextActivity.Authentication
    remote := Remote.None
    ticks := 10
    log_level := LogLevel.Info }

/-- Modelled from the spec: `RunOpts::update()` selects the
install-update task (main.rs line 109, spec section 6). -/
def RunOpts.update : RunOpts :=
  { RunOpts.default with task := Task.InstallUpdate }

/-- Modelled from the spec: `RunOpts::import_theme(theme)` selects the
theme-import task for the given path (main.rs line 110, spec
section 6). -/
def RunOpts.import_theme (theme : String) : RunOpts :=
  { RunOpts.default with task := Task.ImportTheme theme }

/-- Modelled from the spec: `RunOpts::config()` enters the SetupConfig
activity (main.rs line 111, spec section 6). -/
def RunOpts.config : RunOpts :=
  { RunOpts.default with task := Task.Activity NextActivity.SetupActivity }

/-- Subcommands of the CLI (`cli_opts::ArgsSubcommands`, whose variants
are visible from their uses in main.rs lines 108-111). -/
inductive ArgsSubcommands where
  | Update
  | LoadTheme (theme : String)
  | Config
deriving DecidableEq, Repr

/-- The parsed CLI arguments (`cli_opts::Args`, with the fields main.rs
reads: the flags of spec section 6, the positional arguments and the
optional subcommand). -/
structure Args where
  version : Bool
  debug : Bool
  quiet : Bool
  ticks : Nat
  password : Option String
  secure_password : Option String
  address_as_bookmark : Bool
  positional : List String
  nested : Option ArgsSubcommands
deriving DecidableEq, Repr

/-- The external collaborators main.rs calls into, none of which are among
the sources: the remote-address parser (`utils::parser::parse_remote_opt`),
the working-directory change (`std::env::set_current_dir`), the theme
importer and updater (`support`), the activity manager constructor and its
two remote-resolution operations, and the two build-time metadata strings.
Each is abstracted as a function recording only success or failure with an
error message, which is all main.rs inspects. -/
structure Env where
  parse_remote_opt : String → Except String FileTransferParams
  set_current_dir : String → Except String Unit
  import_theme : String → Except String Unit
  install_update : Except String String
  activity_manager_new : Nat → Except String Unit
  resolve_bookmark_name : String → Option String → Except String Unit
  set_filetransfer_params : FileTransferParams → Option String → Except String Unit
  termscp_version : String
  termscp_authors : String

/-- Whether an `Except` value is a success. -/
def isOkE {α : Type} (e : Except String α) : Bool :=
  match e with
  | Except.ok _ => true
  | Except.error _ => false

-- -- main.rs: secure password decryption

/-- The type of the abstracted crypto call in `decrypt_secure_password`:
`String::from_utf8_lossy` on the key and IV buffers followed by
`new_magic_crypt!(key, 256, iv)` and `decrypt_base64_to_string` (the
magic_crypt AES-256-CBC decryption).  The library is external; the
abstraction receives the 32-byte key buffer, the 16-byte IV buffer and
the base64 input, and returns the cleartext or an error message. -/
abbrev AesFun := List Nat → List Nat → String → Except String String

/-- The contiguous byte range `l[a..b]` of a Rust slice. -/
def list_slice (l : List Nat) (a b : Nat) : List Nat :=
  (l.drop a).take (b - a)

/-- Apply a function to the error of an `Except` (Rust's `map_err`). -/
def map_err (f : String → String) : Except String String → Except String String
  | Except.ok a => Except.ok a
  | Except.error e => Except.error (f e)

/-- Embedding of `decrypt_secure_password` (main.rs lines 84-102).
`KEY_DATA` is the 144-byte blob included at build time from
`assets/secure-key.bin` (the asset is not among the sources, so the blob
is a parameter).  `i1 = KEY_DATA[128]` and `i2 = KEY_DATA[129]`; the key
buffer is `KEY_DATA[i1..i1+32]` and the IV buffer `KEY_DATA[i2..i2+16]`.
`none` models a Rust panic: an out-of-bounds index at offset 128 or 129,
or an out-of-bounds slice / `copy_from_slice` length mismatch for the two
buffers.  The final `map_err` is the source's error-message wrapping. -/
def decrypt_secure_password (aes : AesFun) (KEY_DATA : List Nat)
    (secure_password : String) : Option (Except String String) :=
  match KEY_DATA.get? 128, KEY_DATA.get? 129 with
  | some i1, some i2 =>
    if i1 + 32 ≤ KEY_DATA.length ∧ i2 + 16 ≤ KEY_DATA.length then
      let key_buf := list_slice KEY_DATA i1 (i1 + 32)
      let iv_buf := list_slice KEY_DATA i2 (i2 + 16)
      some (map_err (fun e => "Could not decrypt secure password: " ++ e)
        (aes key_buf iv_buf secure_password))
    else none
  | _, _ => none

-- -- main.rs: argument parsing

/-- Embedding of `parse_remote_address` (main.rs lines 175-177): delegate
to the external parser and prefix its error message. -/
def parse_remote_address (env : Env) (remote : String) : Except String FileTransferParams :=
  match env.parse_remote_opt remote with
  | Except.ok params => Except.ok params
  | Except.error e => Except.error ("Bad address option: " ++ e)

/-- Embedding of `parse_address_arg` (main.rs lines 157-172): the first
positional argument becomes a bookmark name under `--address-as-bookmark`,
otherwise it is parsed as a remote address; without a positional argument
the remote is `None`.  (The source's `Result::map` is written as a
match.) -/
def parse_address_arg (env : Env) (args : Args) : Except String Remote :=
  match args.positional.head? with
  | some remote =>
    if args.address_as_bookmark then
      Except.ok (Remote.Bookmark { name := remote, password := args.password })
    else
      match parse_remote_address env remote with
      | Except.ok x => Except.ok (Remote.Host { params := x, password := args.password })
      | Except.error e => Except.error e
  | none => Except.ok Remote.None

/-- Embedding of the local-directory step of `parse_args` (main.rs lines
141-147): if a second positional argument is present, change the working
directory to it; a failure turns into a parse error, otherwise the run
options pass through unchanged. -/
def with_localdir (env : Env) (args : Args) (run_opts : RunOpts) : Except String RunOpts :=
  match args.positional.get? 1 with
  | some localdir =>
    match env.set_current_dir localdir with
    | Except.error err => Except.error ("Bad working directory argument: " ++ err)
    | Except.ok _ => Except.ok run_opts
  | none => Except.ok run_opts

/-- The run options accumulated by `parse_args` before the remote argument
is examined (main.rs lines 113-127): the defaults with the log level set
from `--debug`/`--quiet` and the tick interval set from `--ticks`. -/
def base_opts (args : Args) : RunOpts :=
  { RunOpts.default with
    log_level :=
      if args.debug then LogLevel.Trace
      else if args.quiet then LogLevel.Off
      else RunOpts.default.log_level
    ticks := args.ticks }

/-- Embedding of `parse_args` (main.rs lines 107-154): subcommands map to
their run options; otherwise `--version` is reported through the error
path, the log level and tick interval are set, the remote argument is
parsed (a non-`None` remote switches the first activity to FileTransfer),
and finally the optional local directory is applied. -/
def parse_args (env : Env) (args : Args) : Except String RunOpts :=
  match args.nested with
  | some ArgsSubcommands.Update => Except.ok RunOpts.update
  | some (ArgsSubcommands.LoadTheme theme) => Except.ok (RunOpts.import_theme theme)
  | some ArgsSubcommands.Config => Except.ok RunOpts.config
  | none =>
    if args.version then
      Except.error ("termscp - " ++ env.termscp_version ++ " - Developed by " ++
        env.termscp_authors)
    else
      match parse_address_arg env args with
      | Except.error err => Except.error err
      | Except.ok Remote.None => with_localdir env args (base_opts args)
      | Except.ok remote =>
        with_localdir env args
          { base_opts args with remote := remote
                                task := Task.Activity NextActivity.FileTransfer }

-- -- main.rs: run

/-- Embedding of `run_import_theme` (main.rs lines 188-199): exit code 0
when the import succeeds (after a success message on stdout), 1 when it
fails (after the error on stderr). -/
def run_import_theme (env : Env) (theme : String) : Int :=
  match env.import_theme theme with
  | Except.ok _ => 0
  | Except.error _ => 1

/-- Embedding of `run_install_update` (main.rs lines 201-212): exit code 0
on success, 1 on failure. -/
def run_install_update (env : Env) : Int :=
  match env.install_update with
  | Except.ok _ => 0
  | Except.error _ => 1

/-- Embedding of `run_activity` (main.rs lines 214-242): a failed activity
manager construction returns 1; resolving a bookmark remote or setting
host file-transfer params may each fail with 1; otherwise the manager
runs the activity and the function returns 0. -/
def run_activity (env : Env) (_activity : NextActivity) (ticks : Nat)
    (remote : Remote) : Int :=
  match env.activity_manager_new ticks with
  | Except.error _ => 1
  | Except.ok _ =>
    match remote with
    | Remote.Bookmark b =>
      match env.resolve_bookmark_name b.name b.password with
      | Except.error _ => 1
      | Except.ok _ => 0
    | Remote.Host h =>
      match env.set_filetransfer_params h.params h.password with
      | Except.error _ => 1
      | Except.ok _ => 0
    | Remote.None => 0

/-- Embedding of `run` (main.rs lines 180-186): dispatch on the task. -/
def run (env : Env) (run_opts : RunOpts) : Int :=
  match run_opts.task with
  | Task.ImportTheme theme => run_import_theme env theme
  | Task.InstallUpdate => run_install_update env
  | Task.Activity activity => run_activity env activity run_opts.ticks run_opts.remote

-- -- main.rs: main

/-- The exit code computed by main.rs lines 55-72 once the secure-password
step is behind: a parse error exits with 255, otherwise the process exits
with the code returned by `run`.  (A logging initialisation failure only
prints a message and does not alter the exit code, so it is not
modelled.) -/
def main_after_password (env : Env) (args : Args) : Int :=
  match parse_args env args with
  | Except.error _ => 255
  | Except.ok run_opts => run env run_opts

/-- Result of running the process: a call to `std::process::exit` with a
code, or a panic. -/
inductive MainResult where
  | exit (code : Int)
  | panicked
deriving DecidableEq, Repr

/-- Embedding of `main` (main.rs lines 39-73): when `--secure-password`
is present its value is decrypted first — a decryption error prints to
stderr and exits with 255 before anything else runs, a success replaces
`args.password` with the cleartext — and then argument parsing and the
selected task decide the exit code. -/
def main (aes : AesFun) (KEY_DATA : List Nat) (env : Env) (args : Args) : MainResult :=
  match args.secure_password with
  | none => MainResult.exit (main_after_password env args)
  | some sp =>
    match decrypt_secure_password aes KEY_DATA sp with
    | none => MainResult.panicked
    | some (Except.error _) => MainResult.exit 255
    | some (Except.ok password) =>
      MainResult.exit (main_after_password env { args with password := some password })

-- -- concrete instances used by the witnesses

/-- A crypto stub that returns the input unchanged; used to instantiate
the abstract `AesFun` parameter in witnesses. -/
def aes_id : AesFun := fun _ _ s => Except.ok s

/-- A well-formed 144-byte blob: byte 128 holds the key index 0 and byte
129 the IV index 32, so both derived ranges are in bounds. -/
def good_blob : List Nat :=
  List.replicate 128 7 ++ [0, 32] ++ List.replicate 14 7

/-- A 144-byte blob whose key index (byte 128) is 120, so the 32-byte key
range `[120..152]` runs past the end of the blob. -/
def bad_blob : List Nat :=
  List.replicate 128 0 ++ [120, 0] ++ List.replicate 14 0

/-- A concrete `FileTransferParams` value. -/
def params0 : FileTransferParams :=
  { protocol := FileTransferProtocol.Sftp }

/-- An environment in which every external operation succeeds. -/
def env0 : Env :=
  { parse_remote_opt := fun _ => Except.ok params0
    set_current_dir := fun _ => Except.ok ()
    import_theme := fun _ => Except.ok ()
    install_update := Except.ok ("updated")
    activity_manager_new := fun _ => Except.ok ()
    resolve_bookmark_name := fun _ _ => Except.ok ()
    set_filetransfer_params := fun _ _ => Except.ok ()
    termscp_version := "0.8.0"
    termscp_authors := "devs" }

/-- A plain invocation: no flags, no positional arguments, no
subcommand. -/
def args0 : Args :=
  { version := false
    debug := false
    quiet := false
    ticks := 10
    password := none
    secure_password := none
    address_as_bookmark := false
    positional := []
    nested := none }

/-- An invocation carrying a `--secure-password` value. -/
def args_sec : Args :=
  { args0 with secure_password := some ("c2VjcmV0") }

/-- An invocation of the theme subcommand. -/
def args_theme : Args :=
  { args0 with nested := some (ArgsSubcommands.LoadTheme ("mytheme.toml")) }

/-- An invocation with a remote address positional argument. -/
def args_addr : Args :=
  { args0 with positional := ["example.com"] }

-- -- claims

/-- C5: for every field component of the Auth-activity form (protocol
radio, address, port, username, password, S3 bucket, S3 region, S3
profile), an Enter key event — with any modifier state and any widget
behaviour — produces the `Connect` message. -/
theorem auth_form_enter_triggers_connect :
    ∀ (perform : Cmd → CmdResult) (m : KeyModifiers),
      ProtocolRadio.on perform (Event.Keyboard ⟨Key.Enter, m⟩) = some Msg.Connect ∧
      InputAddress.on perform (Event.Keyboard ⟨Key.Enter, m⟩) = some Msg.Connect ∧
      InputPort.on perform (Event.Keyboard ⟨Key.Enter, m⟩) = some Msg.Connect ∧
      InputUsername.on perform (Event.Keyboard ⟨Key.Enter, m⟩) = some Msg.Connect ∧
      InputPassword.on perform (Event.Keyboard ⟨Key.Enter, m⟩) = some Msg.Connect ∧
      InputS3Bucket.on perform (Event.Keyboard ⟨Key.Enter, m⟩) = some Msg.Connect ∧
      InputS3Region.on perform (Event.Keyboard ⟨Key.Enter, m⟩) = some Msg.Connect ∧
      InputS3Profile.on perform (Event.Keyboard ⟨Key.Enter, m⟩) = some Msg.Connect := by
  intro perform m
  refine ⟨?_, ?_, ?_, ?_, ?_, ?_, ?_, ?_⟩ <;> cases m <;> rfl

/-- C7: the protocol radio offers exactly the five choices SFTP, SCP,
FTP, FTPS, AWS S3 in that order, and the radio indices 0, 1, 2, 3, 4 map
to the protocols Sftp, Scp, Ftp-without-TLS, Ftp-with-TLS, AwsS3
respectively. -/
theorem protocol_radio_choices :
    (∀ p, (ProtocolRadio.new p).choices = ["SFTP", "SCP", "FTP", "FTPS", "AWS S3"]) ∧
    ProtocolRadio.protocol_opt_to_enum 0 = FileTransferProtocol.Sftp ∧
    ProtocolRadio.protocol_opt_to_enum 1 = FileTransferProtocol.Scp ∧
    ProtocolRadio.protocol_opt_to_enum 2 = FileTransferProtocol.Ftp false ∧
    ProtocolRadio.protocol_opt_to_enum 3 = FileTransferProtocol.Ftp true ∧
    ProtocolRadio.protocol_opt_to_enum 4 = FileTransferProtocol.AwsS3 := by
  refine ⟨fun p => rfl, rfl, rfl, rfl, rfl, rfl⟩

/-- C9: the radio-index encoding of protocols round-trips
(`protocol_opt_to_enum (protocol_enum_to_opt p) = p` for every protocol),
and `protocol_opt_to_enum` is total on indices: every index outside
{1, 2, 3, 4} maps to Sftp. -/
theorem protocol_roundtrip_total :
    (∀ p, ProtocolRadio.protocol_opt_to_enum (ProtocolRadio.protocol_enum_to_opt p) = p) ∧
    (∀ n : Nat, n ≠ 1 → n ≠ 2 → n ≠ 3 → n ≠ 4 →
      ProtocolRadio.protocol_opt_to_enum n = FileTransferProtocol.Sftp) := by
  constructor
  · intro p
    rcases p with _ | _ | b | _
    · rfl
    · rfl
    · cases b <;> rfl
    · rfl
  · intro n h1 h2 h3 h4
    match n with
    | 0 => rfl
    | 1 => exact absurd rfl h1
    | 2 => exact absurd rfl h2
    | 3 => exact absurd rfl h3
    | 4 => exact absurd rfl h4
    | (k + 5) => rfl

/-- Witness for C9 at concrete inputs: the round-trip at Scp and totality
at the out-of-range index 7. -/
theorem protocol_roundtrip_total_witness :
    ProtocolRadio.protocol_opt_to_enum
        (ProtocolRadio.protocol_enum_to_opt FileTransferProtocol.Scp) =
      FileTransferProtocol.Scp ∧
    ProtocolRadio.protocol_opt_to_enum 7 = FileTransferProtocol.Sftp :=
  ⟨protocol_roundtrip_total.1 FileTransferProtocol.Scp,
   protocol_roundtrip_total.2 7 (by decide) (by decide) (by decide) (by decide)⟩

/-- C1: for every blob whose derived ranges are in bounds,
`decrypt_secure_password` reads the indices `i1 = blob[128]` and
`i2 = blob[129]`, takes the key as `blob[i1..i1+32]` and the IV as
`blob[i2..i2+16]`, and hands the base64 input to the AES-256-CBC
decryption (the external magic_crypt call, abstracted as `aes`, which
receives the two buffers after the source's UTF-8 interpretation step)
under exactly that key and IV, wrapping a failure message. -/
theorem secure_password_key_derivation :
    ∀ (aes : AesFun) (blob : List Nat) (s : String) (i1 i2 : Nat),
      blob.get? 128 = some i1 → blob.get? 129 = some i2 →
      i1 + 32 ≤ blob.length → i2 + 16 ≤ blob.length →
      decrypt_secure_password aes blob s =
        some (map_err (fun e => "Could not decrypt secure password: " ++ e)
          (aes (list_slice blob i1 (i1 + 32)) (list_slice blob i2 (i2 + 16)) s)) := by
  intro aes blob s i1 i2 h1 h2 hk hiv
  unfold decrypt_secure_password
  rw [h1, h2]
  simp [hk, hiv]

/-- Witness for C1: on the concrete in-bounds blob `good_blob` with the
identity crypto stub, the derivation produces exactly the spec's ranges
`blob[0..32]` and `blob[32..48]`. -/
theorem secure_password_key_derivation_witness :
    decrypt_secure_password aes_id good_blob ("c2VjcmV0") =
      some (map_err (fun e => "Could not decrypt secure password: " ++ e)
        (aes_id (list_slice good_blob 0 (0 + 32)) (list_slice good_blob 32 (32 + 16))
          ("c2VjcmV0"))) :=
  secure_password_key_derivation aes_id good_blob ("c2VjcmV0") 0 32
    (by decide) (by decide) (by decide) (by decide)

/-- C3: when `--secure-password` is supplied, a successful decryption
replaces the session password (the `--password` value) and execution
proceeds with the rewritten arguments, while a decryption failure exits
with code 255 (after the error message on stderr) before anything else is
attempted — the result does not depend on the environment. -/
theorem secure_password_flag_behavior :
    ∀ (aes : AesFun) (KEY_DATA : List Nat) (env : Env) (args : Args) (sp : String)
      (r : Except String String),
      args.secure_password = some sp →
      decrypt_secure_password aes KEY_DATA sp = some r →
      main aes KEY_DATA env args =
        (match r with
         | Except.ok pw =>
           MainResult.exit (main_after_password env { args with password := some pw })
         | Except.error _ => MainResult.exit 255) := by
  intro aes blob env args sp r hsp hd
  unfold main
  rw [hsp]
  dsimp only
  rw [hd]
  cases r <;> rfl

/-- Witness for C3: with the concrete in-bounds blob and identity crypto
stub, the sealed input decrypts to itself and main proceeds with the
password field replaced by the cleartext. -/
theorem secure_password_flag_behavior_witness :
    main aes_id good_blob env0 args_sec =
      MainResult.exit (main_after_password env0 { args_sec with password := some ("c2VjcmV0") }) :=
  secure_password_flag_behavior aes_id good_blob env0 args_sec ("c2VjcmV0")
    (Except.ok ("c2VjcmV0")) rfl rfl

/-- C4: running the theme subcommand with a path exits with code 0 (after
a success message) when the theme import succeeds, and with code 1 (after
the error on stderr) when the import fails. -/
theorem theme_subcommand_exit_codes :
    ∀ (aes : AesFun) (KEY_DATA : List Nat) (env : Env) (args : Args) (theme : String),
      args.nested = some (ArgsSubcommands.LoadTheme theme) →
      args.secure_password = none →
      main aes KEY_DATA env args =
        MainResult.exit (if isOkE (env.import_theme theme) then 0 else 1) := by
  intro aes blob env args theme hn hsp
  unfold main
  rw [hsp]
  have hpa : parse_args env args = Except.ok (RunOpts.import_theme theme) := by
    unfold parse_args
    rw [hn]
  unfold main_after_password
  rw [hpa]
  unfold run RunOpts.import_theme run_import_theme isOkE
  cases h : env.import_theme theme <;> simp [h]

/-- Witness for C4: with an all-succeeding environment the theme
subcommand exits with code 0. -/
theorem theme_subcommand_exit_codes_witness :
    main aes_id good_blob env0 args_theme = MainResult.exit 0 :=
  theme_subcommand_exit_codes aes_id good_blob env0 args_theme ("mytheme.toml") rfl rfl

/-- C8 counterexample: nothing rejects a short-ranged blob at build time —
`bad_blob` has the spec's 144-byte shape, yet its key index 120 makes the
key range `[120..152]` run out of bounds, so `decrypt_secure_password`
fails at runtime (a panic, modelled as `none`) on it. -/
theorem short_blob_runtime_failure :
    bad_blob.length = 144 ∧ bad_blob.get? 128 = some 120 ∧
    decrypt_secure_password aes_id bad_blob ("AAAA") = none := by
  refine ⟨by decide, by decide, by rfl⟩

/-- C8 amended: the sources contain no build-time length check; whenever
`decrypt_secure_password` executes, the extraction of the two buffers
succeeds exactly when the derived ranges are in bounds
(`i1 + 32 ≤ len(blob)` and `i2 + 16 ≤ len(blob)`), and otherwise the
function fails at runtime. -/
theorem blob_extraction_bounds :
    ∀ (aes : AesFun) (blob : List Nat) (s : String) (i1 i2 : Nat),
      blob.get? 128 = some i1 → blob.get? 129 = some i2 →
      ((decrypt_secure_password aes blob s).isSome = true ↔
        (i1 + 32 ≤ blob.length ∧ i2 + 16 ≤ blob.length)) := by
  intro aes blob s i1 i2 h1 h2
  unfold decrypt_secure_password
  rw [h1, h2]
  by_cases hb : i1 + 32 ≤ blob.length ∧ i2 + 16 ≤ blob.length
  · simp [hb]
  · simp [hb]

/-- Witness for C8 (amended): on the concrete in-bounds blob the
extraction succeeds and the bound condition holds. -/
theorem blob_extraction_bounds_witness :
    (decrypt_secure_password aes_id good_blob ("x")).isSome = true ↔
      (0 + 32 ≤ good_blob.length ∧ 32 + 16 ≤ good_blob.length) :=
  blob_extraction_bounds aes_id good_blob ("x") 0 32 (by decide) (by decide)

/-- Helper: the local-directory step never alters the run options of a
successful parse. -/
theorem with_localdir_ok :
    ∀ (env : Env) (args : Args) (o opts : RunOpts),
      with_localdir env args o = Except.ok opts → opts = o := by
  intro env args o opts h
  unfold with_localdir at h
  split at h
  · split at h
    · cases h
    · injection h with h
      exact h.symm
  · injection h with h
    exact h.symm

/-- C10: if argument parsing (without a subcommand) succeeds, then a
present remote-address positional argument — which always resolves to a
non-empty remote: a parsed host, or a bookmark name under
`--address-as-bookmark` — makes the first activity FileTransfer, while
with no address argument the default task and empty remote are kept. -/
theorem address_arg_first_activity :
    ∀ (env : Env) (args : Args) (opts : RunOpts),
      args.nested = none →
      parse_args env args = Except.ok opts →
      if args.positional.isEmpty then
        opts.task = RunOpts.default.task ∧ opts.remote = Remote.None
      else
        opts.task = Task.Activity NextActivity.FileTransfer ∧ opts.remote ≠ Remote.None := by
  intro env args opts hn hp
  unfold parse_args at hp
  rw [hn] at hp
  by_cases hv : args.version
  · rw [if_pos hv] at hp
    cases hp
  · rw [if_neg hv] at hp
    cases hps : args.positional with
    | nil =>
      have hpa : parse_address_arg env args = Except.ok Remote.None := by
        unfold parse_address_arg
        rw [hps]
        rfl
      rw [hpa] at hp
      have hopts := with_localdir_ok env args _ opts hp
      subst hopts
      simp [hps, base_opts, RunOpts.default]
    | cons a rest =>
      have hhead : args.positional.head? = some a := by rw [hps]; rfl
      by_cases hb : args.address_as_bookmark
      · have hpa : parse_address_arg env args =
            Except.ok (Remote.Bookmark { name := a, password := args.password }) := by
          unfold parse_address_arg
          rw [hhead]
          dsimp only
          rw [if_pos hb]
        rw [hpa] at hp
        have hopts := with_localdir_ok env args _ opts hp
        subst hopts
        simp [hps]
      · cases hpr : env.parse_remote_opt a with
        | error e =>
          have hpa : parse_address_arg env args =
              Except.error ("Bad address option: " ++ e) := by
            unfold parse_address_arg
            rw [hhead]
            dsimp only
            rw [if_neg hb]
            unfold parse_remote_address
            rw [hpr]
          rw [hpa] at hp
          cases hp
        | ok params =>
          have hpa : parse_address_arg env args =
              Except.ok (Remote.Host { params := params, password := args.password }) := by
            unfold parse_address_arg
            rw [hhead]
            dsimp only
            rw [if_neg hb]
            unfold parse_remote_address
            rw [hpr]
          rw [hpa] at hp
          have hopts := with_localdir_ok env args _ opts hp
          subst hopts
          simp [hps]

/-- The run options a single-host invocation parses to. -/
def opts_addr : RunOpts :=
  { task := Task.Activity NextActivity.FileTransfer
    remote := Remote.Host { params := params0, password := none }
    ticks := 10
    log_level := LogLevel.Info }

/-- Witness for C10: parsing the concrete invocation with the positional
address `example.com` yields the FileTransfer task and a host remote. -/
theorem address_arg_first_activity_witness :
    opts_addr.task = Task.Activity NextActivity.FileTransfer ∧
    opts_addr.remote ≠ Remote.None :=
  address_arg_first_activity env0 args_addr opts_addr rfl rfl

-- -- C2: exit code classification

/-- Whether the `--secure-password` decryption step failed (the condition
under which main.rs lines 47-50 exit with 255). -/
def decrypt_errored (aes : AesFun) (KEY_DATA : List Nat) (args : Args) : Bool :=
  match args.secure_password with
  | none => false
  | some sp =>
    match decrypt_secure_password aes KEY_DATA sp with
    | some (Except.error _) => true
    | _ => false

/-- The arguments seen by `parse_args`: unchanged without
`--secure-password`, or with the password replaced by the decrypted
cleartext; `none` when the decryption step errored or panicked and
parsing is never reached. -/
def effective_args (aes : AesFun) (KEY_DATA : List Nat) (args : Args) : Option Args :=
  match args.secure_password with
  | none => some args
  | some sp =>
    match decrypt_secure_password aes KEY_DATA sp with
    | some (Except.ok pw) => some { args with password := some pw }
    | _ => none

/-- The claim's runtime-failure condition: a theme-import failure, an
update failure, a failure to construct the activity manager, or a failure
to resolve a bookmark or to set the file-transfer parameters. -/
def runtime_failed (env : Env) (opts : RunOpts) : Bool :=
  match opts.task with
  | Task.ImportTheme theme => !(isOkE (env.import_theme theme))
  | Task.InstallUpdate => !(isOkE env.install_update)
  | Task.Activity _ =>
    !(isOkE (env.activity_manager_new opts.ticks)) ||
      (match opts.remote with
       | Remote.Bookmark b => !(isOkE (env.resolve_bookmark_name b.name b.password))
       | Remote.Host h => !(isOkE (env.set_filetransfer_params h.params h.password))
       | Remote.None => false)

/-- Helper: `run` returns 1 exactly on the runtime failures and 0
otherwise. -/
theorem run_classifies :
    ∀ (env : Env) (opts : RunOpts),
      run env opts = if runtime_failed env opts then 1 else 0 := by
  intro env opts
  unfold run runtime_failed
  cases opts.task with
  | ImportTheme theme =>
    unfold run_import_theme isOkE
    cases h : env.import_theme theme <;> simp [h]
  | InstallUpdate =>
    unfold run_install_update isOkE
    cases h : env.install_update <;> simp [h]
  | Activity a =>
    unfold run_activity isOkE
    cases hm : env.activity_manager_new opts.ticks with
    | error e => simp [hm]
    | ok u =>
      cases opts.remote with
      | None => simp [hm]
      | Bookmark b =>
        cases hb : env.resolve_bookmark_name b.name b.password <;> simp [hm, hb]
      | Host h =>
        cases hh : env.set_filetransfer_params h.params h.password <;> simp [hm, hh]

/-- Helper: the exit code of the post-password phase, classified by the
parse result and the runtime-failure condition. -/
theorem exit_code_after :
    ∀ (env : Env) (a : Args) (c : Int),
      main_after_password env a = c →
      (c = 0 ∨ c = 1 ∨ c = 255) ∧
      (c = 255 ↔ isOkE (parse_args env a) = false) ∧
      (c = 1 ↔ ∃ opts, parse_args env a = Except.ok opts ∧ runtime_failed env opts = true) ∧
      (c = 0 ↔ ∃ opts, parse_args env a = Except.ok opts ∧ runtime_failed env opts = false) := by
  intro env a c h
  unfold main_after_password at h
  cases hp : parse_args env a with
  | error e =>
    rw [hp] at h
    dsimp only at h
    subst h
    refine ⟨Or.inr (Or.inr rfl), by simp [hp, isOkE], ?_, ?_⟩
    · constructor
      · intro h'
        exact absurd h' (by decide)
      · rintro ⟨o, ho, -⟩
        cases ho
    · constructor
      · intro h'
        exact absurd h' (by decide)
      · rintro ⟨o, ho, -⟩
        cases ho
  | ok opts =>
    rw [hp] at h
    dsimp only at h
    rw [run_classifies] at h
    cases hrf : runtime_failed env opts with
    | true =>
      rw [hrf] at h
      simp at h
      subst h
      refine ⟨Or.inr (Or.inl rfl), by norm_num [hp, isOkE], ?_, ?_⟩
      · simp [hp, hrf]
      · constructor
        · intro h'
          exact absurd h' (by decide)
        · rintro ⟨o, ho, hro⟩
          injection ho with ho
          subst ho
          rw [hrf] at hro
          cases hro
    | false =>
      rw [hrf] at h
      simp at h
      subst h
      refine ⟨Or.inl rfl, by norm_num [hp, isOkE], ?_, ?_⟩
      · constructor
        · intro h'
          exact absurd h' (by decide)
        · rintro ⟨o, ho, hro⟩
          injection ho with ho
          subst ho
          rw [hrf] at hro
          cases hro
      · simp [hp, hrf]

/-- The claim's exit-code classification: 255 exactly when the
secure-password decryption or argument parsing fails, 1 exactly when a
runtime failure occurs (theme import, update, activity-manager
construction, bookmark resolution or params setting), 0 exactly on
success, and nothing else. -/
def exit_code_spec (aes : AesFun) (KEY_DATA : List Nat) (env : Env) (args : Args)
    (c : Int) : Prop :=
  (c = 0 ∨ c = 1 ∨ c = 255) ∧
  (c = 255 ↔ (decrypt_errored aes KEY_DATA args = true ∨
    ∃ a, effective_args aes KEY_DATA args = some a ∧ isOkE (parse_args env a) = false)) ∧
  (c = 1 ↔ ∃ a opts, effective_args aes KEY_DATA args = some a ∧
    parse_args env a = Except.ok opts ∧ runtime_failed env opts = true) ∧
  (c = 0 ↔ ∃ a opts, effective_args aes KEY_DATA args = some a ∧
    parse_args env a = Except.ok opts ∧ runtime_failed env opts = false)

/-- C2: for every invocation that exits (does not panic on a malformed
key blob), the process exit code is 255 exactly when the secure-password
step or argument parsing fails, 1 exactly on a runtime failure
(theme-import failure, update failure, failure to construct the activity
manager, or failure to resolve a bookmark or set the file-transfer
parameters), and 0 exactly on success. -/
theorem exit_code_classification :
    ∀ (aes : AesFun) (KEY_DATA : List Nat) (env : Env) (args : Args) (c : Int),
      main aes KEY_DATA env args = MainResult.exit c →
      exit_code_spec aes KEY_DATA env args c := by
  intro aes blob env args c h
  unfold exit_code_spec
  unfold main at h
  cases hsp : args.secure_password with
  | none =>
    rw [hsp] at h
    injection h with h
    obtain ⟨h1, h2, h3, h4⟩ := exit_code_after env args c h
    refine ⟨h1, ?_, ?_, ?_⟩
    · rw [h2]; simp [decrypt_errored, effective_args, hsp]
    · rw [h3]; simp [effective_args, hsp]
    · rw [h4]; simp [effective_args, hsp]
  | some sp =>
    rw [hsp] at h
    dsimp only at h
    cases hd : decrypt_secure_password aes blob sp with
    | none =>
      rw [hd] at h
      cases h
    | some r =>
      rw [hd] at h
      cases r with
      | ok pw =>
        injection h with h
        obtain ⟨h1, h2, h3, h4⟩ := exit_code_after env { args with password := some pw } c h
        refine ⟨h1, ?_, ?_, ?_⟩
        · rw [h2]; simp [decrypt_errored, effective_args, hsp, hd]
        · rw [h3]; simp [effective_args, hsp, hd]
        · rw [h4]; simp [effective_args, hsp, hd]
      | error e =>
        injection h with h
        subst h
        refine ⟨Or.inr (Or.inr rfl), ?_, ?_, ?_⟩
        · simp [decrypt_errored, hsp, hd]
        · constructor
          · intro h'
            exact absurd h' (by decide)
          · rintro ⟨a0, o, ha0, -, -⟩
            simp [effective_args, hsp, hd] at ha0
        · constructor
          · intro h'
            exact absurd h' (by decide)
          · rintro ⟨a0, o, ha0, -, -⟩
            simp [effective_args, hsp, hd] at ha0

/-- Witness for C2: the plain all-succeeding invocation exits with 0 and
satisfies the classification. -/
theorem exit_code_classification_witness :
    exit_code_spec aes_id good_blob env0 args0 0 :=
  exit_code_classification aes_id good_blob env0 args0 0 rfl

-- -- C6: port field admission

/-- Helper: a digit character contributes at most 9 to the numeral
value. -/
theorem digit_toNat_le (c : Char) (h : c.isDigit = true) : c.toNat - 48 ≤ 9 := by
  simp [Char.isDigit] at h
  obtain ⟨h1, h2⟩ := h
  have h3 : c.toNat ≤ 57 := h2
  omega

/-- Helper: the numeral value of an all-digit buffer started from
accumulator `a` stays below `(a + 1) * 10 ^ length`. -/
theorem digits_foldl_lt :
    ∀ (cs : List Char) (a : Nat), cs.all Char.isDigit = true →
      cs.foldl (fun a c => a * 10 + (c.toNat - 48)) a < (a + 1) * 10 ^ cs.length := by
  intro cs
  induction cs with
  | nil =>
    intro a _
    simp
  | cons c cs ih =>
    intro a hall
    rw [List.all_cons, Bool.and_eq_true] at hall
    obtain ⟨hc, hcs⟩ := hall
    have hd : c.toNat - 48 ≤ 9 := digit_toNat_le c hc
    have h1 : (c :: cs).foldl (fun a c => a * 10 + (c.toNat - 48)) a =
        cs.foldl (fun a c => a * 10 + (c.toNat - 48)) (a * 10 + (c.toNat - 48)) := rfl
    rw [h1]
    have h2 := ih (a * 10 + (c.toNat - 48)) hcs
    have h3 : (a * 10 + (c.toNat - 48) + 1) * 10 ^ cs.length ≤
        (a + 1) * 10 ^ (c :: cs).length := by
      rw [List.length_cons, pow_succ]
      have h4 : a * 10 + (c.toNat - 48) + 1 ≤ (a + 1) * 10 := by omega
      calc (a * 10 + (c.toNat - 48) + 1) * 10 ^ cs.length
          ≤ ((a + 1) * 10) * 10 ^ cs.length := Nat.mul_le_mul_right _ h4
        _ = (a + 1) * (10 ^ cs.length * 10) := by ring
    exact Nat.lt_of_lt_of_le h2 h3

/-- Helper: a keypress on an unsigned-integer field with `input_len n`
preserves the all-digit invariant and the length bound. -/
theorem input_keypress_inv :
    ∀ (cfg : InputConfig) (n : Nat) (buf : List Char) (c : Char),
      cfg.input_type = InputTypeCfg.UnsignedInteger →
      cfg.input_len = some n →
      buf.all Char.isDigit = true → buf.length ≤ n →
      (input_keypress cfg buf c).all Char.isDigit = true ∧
        (input_keypress cfg buf c).length ≤ n := by
  intro cfg n buf c ht hl hall hlen
  unfold input_keypress
  rw [ht, hl]
  dsimp only
  split
  next h =>
    rw [Bool.and_eq_true, decide_eq_true_eq] at h
    constructor
    · rw [List.all_append, hall, Bool.true_and]
      simp [h.1]
    · rw [List.length_append, List.length_singleton]
      omega
  next h =>
    exact ⟨hall, hlen⟩

/-- Helper: typing any key sequence into an empty unsigned-integer field
with `input_len n` yields an all-digit buffer of length at most `n`. -/
theorem input_typed_inv :
    ∀ (cfg : InputConfig) (n : Nat) (cs : List Char),
      cfg.input_type = InputTypeCfg.UnsignedInteger →
      cfg.input_len = some n →
      (input_typed cfg cs).all Char.isDigit = true ∧ (input_typed cfg cs).length ≤ n := by
  intro cfg n cs ht hl
  unfold input_typed
  have general : ∀ (cs : List Char) (buf : List Char),
      buf.all Char.isDigit = true → buf.length ≤ n →
      (cs.foldl (input_keypress cfg) buf).all Char.isDigit = true ∧
        (cs.foldl (input_keypress cfg) buf).length ≤ n := by
    intro cs
    induction cs with
    | nil => intro buf h1 h2; exact ⟨h1, h2⟩
    | cons c cs ih =>
      intro buf h1 h2
      obtain ⟨h1', h2'⟩ := input_keypress_inv cfg n buf c ht hl h1 h2
      exact ih (input_keypress cfg buf c) h1' h2'
  exact general cs [] rfl (Nat.zero_le n)

/-- C6 counterexample: the port field as configured by `InputPort::new`
admits the five keystrokes `99999`, whose numeric value 99999 lies outside
the claimed range 1..65535 — the field itself enforces no port-range
bound. -/
theorem port_field_admits_out_of_range :
    input_typed (InputPort.new 22) ['9', '9', '9', '9', '9'] = ['9', '9', '9', '9', '9'] ∧
    digits_val ['9', '9', '9', '9', '9'] = 99999 ∧
    65535 < digits_val ['9', '9', '9', '9', '9'] := by
  refine ⟨by decide, by decide, by decide⟩

/-- C6 amended: the port field restricts input to decimal-digit buffers of
at most five characters — hence values below 100000 — and nothing more;
the 1..65535 port-range validation is not performed by the field (the spec
places it in the Connect-time validation). -/
theorem port_field_admission_characterization :
    ∀ (port : Nat) (cs : List Char),
      (input_typed (InputPort.new port) cs).all Char.isDigit = true ∧
      (input_typed (InputPort.new port) cs).length ≤ 5 ∧
      digits_val (input_typed (InputPort.new port) cs) < 100000 := by
  intro port cs
  obtain ⟨hall, hlen⟩ := input_typed_inv (InputPort.new port) 5 cs rfl rfl
  refine ⟨hall, hlen, ?_⟩
  have hval := digits_foldl_lt (input_typed (InputPort.new port) cs) 0 hall
  unfold digits_val
  calc (input_typed (InputPort.new port) cs).foldl (fun a c => a * 10 + (c.toNat - 48)) 0
      < (0 + 1) * 10 ^ (input_typed (InputPort.new port) cs).length := hval
    _ = 10 ^ (input_typed (InputPort.new port) cs).length := by ring
    _ ≤ 10 ^ 5 := Nat.pow_le_pow_right (by decide) hlen
    _ = 100000 := by norm_num

end Termscp
